import Mathlib

/-!
Shallow embedding of `src/main/main.c` (ESP32-S3 WiFi STA → USB ECM/RNDIS
dongle) for checking the natural-language specification against the code.

Modelling conventions:
* C pointers that the code only tests for NULL are modelled as `Option` or
  `Bool` ("the pointer is non-null").
* External collaborators (ESP-IDF netif/DHCP-server services, TinyUSB,
  lwIP allocation) are modelled as environments: records of response
  streams; the embedded functions are deterministic functions of those
  environments.
* IPv4 addresses are `Nat` values in host byte order (the code calls
  `ntohl` before extracting octets; we keep host order throughout, so
  `ntohl` is the identity in the model).
* Machine integers: `uint16_t` accumulation wraps modulo 65536; this is
  written out explicitly where the code can overflow.
-/

namespace WifiAdapter

/-- ESP-IDF error codes that `main.c` distinguishes. All other codes behave
identically in the source (they hit the generic retry/log branches), so they
are collapsed into `other`. -/
inductive EspErr where
  | ok
  | fail
  | invalidArg
  | alreadyStopped   -- ESP_ERR_ESP_NETIF_DHCP_ALREADY_STOPPED
  | notStopped       -- ESP_ERR_ESP_NETIF_DHCP_NOT_STOPPED
  | other
deriving DecidableEq, Repr

/-- lwIP `err_t`: `ERR_OK` is 0, errors are nonzero. -/
abbrev LwErr := Int

def ERR_OK : LwErr := 0

/-- The fields of `struct netif` that `main.c` reads: the three function
pointers, each modelled as "is non-null". -/
structure LwNetif where
  output : Bool
  linkoutput : Bool
  input : Bool
deriving DecidableEq, Repr

/-- `IP4_ADDR(a,b,c,d)` / `esp_ip4addr_aton("a.b.c.d")`: pack four octets
into one IPv4 address (host byte order); each argument is truncated to its
low 8 bits exactly as the `IP4_ADDR` macro masks with `0xff`. -/
def mkIp4 (a b c d : Nat) : Nat :=
  (a % 256) * 16777216 + (b % 256) * 65536 + (c % 256) * 256 + d % 256

/-- `esp_netif_ip_info_t`: {ip, netmask, gw}, IPv4, host byte order. -/
structure IpInfo where
  ip : Nat
  netmask : Nat
  gw : Nat
deriving DecidableEq, Repr

/-- The spec's "network address": the address masked by the netmask. -/
def networkAddr (ip mask : Nat) : Nat := ip &&& mask

/-! ## Frame Buffers (lwIP pbuf chains)

A pbuf chain is its list of segments in chain order; each segment is its
payload bytes (`q->payload`, with `q->len` = the segment's length). -/

structure Pbuf where
  segs : List (List Nat)
deriving DecidableEq, Repr

/-- Total length of a pbuf chain (sum of `q->len` over the chain). -/
def pbufTotLen (p : Pbuf) : Nat := (p.segs.map List.length).sum

/-! ## Outbound relay: `tud_network_xmit_cb` (main.c:317-331) and
`usb_driver_transmit` (main.c:336-351) -/

/-- One step of the drain loop body of `tud_network_xmit_cb`:
`for (q = p; q; q = q->next) { if (q->len) { memcpy(dst+total, q->payload, q->len); total += q->len; } }`.
Returns the bytes written to `dst` (in write order; faithful to the
sequence of `memcpy`s as long as the running offset does not wrap) and the
final `total`. `total` is a `uint16_t`, so it accumulates modulo 65536. -/
def xmitLoop : List (List Nat) → Nat → List Nat × Nat
  | [], total => ([], total)
  | q :: rest, total =>
    if q.length ≠ 0 then
      let r := xmitLoop rest ((total + q.length) % 65536)
      (q ++ r.1, r.2)
    else xmitLoop rest total

structure XmitResult where
  written : List Nat
  ret : Nat          -- the returned uint16_t total
  frees : Nat        -- number of pbuf_free calls on the buffer
deriving DecidableEq, Repr

/-- `tud_network_xmit_cb(uint8_t *dst, void *ref, uint16_t arg)`:
null-checks `dst`/`ref`, drains the chain into `dst`, frees the pbuf once,
returns the accumulated total. `arg` is ignored by the source (`(void)arg`). -/
def tud_network_xmit_cb (dst : Option Unit) (ref : Option Pbuf) : XmitResult :=
  match dst, ref with
  | some _, some p =>
    let r := xmitLoop p.segs 0
    ⟨r.1, r.2, 1⟩
  | _, _ => ⟨[], 0, 0⟩

structure DriverTxResult where
  rc : EspErr
  frees : Nat        -- pbuf_free calls made by the driver glue
  xmitCalls : Nat    -- calls handed on to tud_network_xmit
deriving DecidableEq, Repr

/-- `usb_driver_transmit(handle, buffer, len)`: NULL buffer →
`ESP_ERR_INVALID_ARG`; TinyUSB not ready → free the pbuf and `ESP_FAIL`
(frame dropped, no retry); otherwise hand the pbuf to `tud_network_xmit`
once and return `ESP_OK`. `handle`/`len` are ignored by the source. -/
def usb_driver_transmit (buffer : Option Pbuf) (tudReady : Bool) : DriverTxResult :=
  match buffer with
  | none => ⟨EspErr.invalidArg, 0, 0⟩
  | some _ =>
    if tudReady = false then ⟨EspErr.fail, 1, 0⟩
    else ⟨EspErr.ok, 0, 1⟩

/-! ## Inbound relay: `tud_network_recv_cb` (main.c:264-314) and
`netif_input_cb` (main.c:130-146) -/

/-- Environment for one inbound frame: state of the globals and the outcome
of each external call the code makes. -/
structure RecvEnv where
  usbNetifSet : Bool            -- usb_netif != NULL
  lw : Option LwNetif           -- esp_netif_get_netif_impl(usb_netif)
  pbufAllocOk : Bool            -- pbuf_alloc(PBUF_RAW, size, PBUF_POOL) succeeds
  chain : List Nat              -- segment capacities of the allocated chain
  mallocOk : Bool               -- malloc(sizeof(recv_arg_t)) succeeds
  postOk : Bool                 -- tcpip_callback_with_block(...) == ERR_OK
deriving DecidableEq, Repr

structure RecvResult where
  ret : Bool        -- the bool returned to TinyUSB
  allocs : Nat      -- pbufs successfully allocated
  frees : Nat       -- pbuf_free calls made inside tud_network_recv_cb itself
  posted : Bool     -- the (pbuf, netif) pair was handed to the tcpip thread
deriving DecidableEq, Repr

/-- The copy loop of `tud_network_recv_cb` (main.c:279-284): walk the
allocated chain, copying `min(q->len, size - copied)` bytes of `src` into
each segment while `copied < size`. Returns the written segment contents. -/
def recvCopy (src : List Nat) (size : Nat) : List Nat → Nat → List (List Nat)
  | [], _ => []
  | cap :: rest, copied =>
    if copied < size then
      let c := min cap (size - copied)
      ((src.drop copied).take c) :: recvCopy src size rest (copied + c)
    else []

/-- `tud_network_recv_cb(const uint8_t *src, uint16_t size)`: the guard
chain rejects null `src`, zero `size`, missing `usb_netif` and missing lwIP
impl before any allocation; then allocates a pbuf, copies, allocates the
`recv_arg_t`, and posts to the tcpip thread, freeing the pbuf itself on any
failure after allocation. Note that the lwIP netif's function pointers are
never examined here — only the impl pointer's nullness. -/
def tud_network_recv_cb (src : Option (List Nat)) (size : Nat) (env : RecvEnv) :
    RecvResult :=
  match src with
  | none => ⟨false, 0, 0, false⟩
  | some _ =>
    if size = 0 then ⟨false, 0, 0, false⟩
    else if env.usbNetifSet = false then ⟨false, 0, 0, false⟩
    else
      match env.lw with
      | none => ⟨false, 0, 0, false⟩
      | some _ =>
        if env.pbufAllocOk = false then ⟨false, 0, 0, false⟩
        else if env.mallocOk = false then ⟨false, 1, 1, false⟩
        else if env.postOk = false then ⟨false, 1, 1, false⟩
        else ⟨true, 1, 0, true⟩

structure InputCbResult where
  frees : Nat       -- pbuf_free calls made by netif_input_cb
  accepted : Bool   -- netif->input returned ERR_OK (the stack took ownership)
deriving DecidableEq, Repr

/-- `netif_input_cb(void *arg)` run in the tcpip thread: if both the netif
and the pbuf are present, call `n->input(p, n)`; on a non-OK result free the
pbuf, on OK the stack owns it. If the netif is absent but a pbuf is present,
free the pbuf. Calling through a null `input` pointer is undefined in C, so
that case is `none` in the model. -/
def netif_input_cb (n : Option LwNetif) (pPresent : Bool) (inputRes : LwErr) :
    Option InputCbResult :=
  match n, pPresent with
  | some nn, true =>
    if nn.input then
      if inputRes = ERR_OK then some ⟨0, true⟩ else some ⟨1, false⟩
    else none
  | _, true => some ⟨1, false⟩
  | _, false => some ⟨0, false⟩

structure RelayOutcome where
  ret : Bool
  allocs : Nat
  frees : Nat       -- total pbuf_free calls made by the relay (both halves)
  accepted : Bool
deriving DecidableEq, Repr

/-- The full inbound path: `tud_network_recv_cb` followed, when the post
succeeded, by the deferred `netif_input_cb` in the tcpip thread with the
same pbuf and netif. `none` = the deferred callback would have called a
null `input` pointer (undefined behavior in the C). -/
def inboundRelay (src : Option (List Nat)) (size : Nat) (env : RecvEnv)
    (inputRes : LwErr) : Option RelayOutcome :=
  let r := tud_network_recv_cb src size env
  if r.posted then
    match netif_input_cb env.lw true inputRes with
    | some ic => some ⟨r.ret, r.allocs, r.frees + ic.frees, ic.accepted⟩
    | none => none
  else some ⟨r.ret, r.allocs, r.frees, false⟩

/-! ## Readiness waiter: `wait_for_lwip_netif_ready` (main.c:99-127) -/

/-- The readiness test of the wait loop: `lw && lw->output && lw->linkoutput`. -/
def netifReady : Option LwNetif → Bool
  | none => false
  | some n => n.output && n.linkoutput

structure WaitResult where
  netif : Option LwNetif  -- the returned `struct netif *` (last value fetched)
  ready : Bool            -- returned through the early (fully-ready) exit
  sleeps : Nat            -- number of vTaskDelay(100ms) calls made
deriving DecidableEq, Repr

/-- The `while (waited < timeout_ms)` loop: at iteration `k` fetch
`esp_netif_get_netif_impl` (modelled by `env k`); if output and linkoutput
are non-null return it immediately, else sleep 100 ms and continue. On
timeout return the last fetched pointer (possibly null, possibly with null
callbacks). `fuel` is the number of iterations left. -/
def waitLoop (env : Nat → Option LwNetif) : Nat → Nat → WaitResult
  | k, 0 => ⟨if k = 0 then none else env (k - 1), false, k⟩
  | k, fuel + 1 =>
    let lw := env k
    if netifReady lw then ⟨lw, true, k⟩
    else waitLoop env (k + 1) fuel

/-- `wait_for_lwip_netif_ready(enet, timeout_ms)`: the loop runs
`⌈timeout_ms / 100⌉` iterations (step 100 ms). Purely observational: it
returns whatever the environment shows and never writes to the netif. -/
def wait_for_lwip_netif_ready (env : Nat → Option LwNetif) (timeout_ms : Nat) :
    WaitResult :=
  waitLoop env 0 ((timeout_ms + 99) / 100)

/-! ## Address reconciliation: `usb_dhcps_start_task` (main.c:149-238),
`ensure_usb_has_ip` (main.c:370-413), `set_usb_ip_from_wifi` (main.c:502-580)

The external Network Configuration Service is modelled as response streams:
the i-th call made at a given call site receives the i-th response of that
site's stream. -/

/-- The exit test of the dhcps-stop retry loops:
`rc == ESP_OK || rc == ESP_ERR_ESP_NETIF_DHCP_ALREADY_STOPPED`. -/
def stopSuccess : EspErr → Bool
  | EspErr.ok => true
  | EspErr.alreadyStopped => true
  | _ => false

/-- The `esp_netif_dhcps_stop` retry loop (main.c:168-176 with bound 8;
main.c:381-386 with bound 6): try up to `fuel` times starting at attempt
index `i`, breaking on OK or ALREADY_STOPPED. Returns the number of
attempts made. -/
def dhcpsStopLoop (res : Nat → EspErr) : Nat → Nat → Nat
  | i, 0 => i
  | i, fuel + 1 =>
    if stopSuccess (res i) then i + 1
    else dhcpsStopLoop res (i + 1) fuel

structure SetLoopOut where
  attempts : Nat    -- esp_netif_set_ip_info calls made
  recStops : Nat    -- recovery esp_netif_dhcps_stop calls made
  ok : Bool         -- set_ok
deriving DecidableEq, Repr

/-- The `esp_netif_set_ip_info` retry loop (main.c:180-196): up to `fuel`
attempts; OK breaks with success; DHCP_NOT_STOPPED makes one recovery
`dhcps_stop` call (result only logged) and retries; any other error
retries. -/
def setIpLoop (res : Nat → EspErr) : Nat → Nat → Nat → SetLoopOut
  | j, recs, 0 => ⟨j, recs, false⟩
  | j, recs, fuel + 1 =>
    match res j with
    | EspErr.ok => ⟨j + 1, recs, true⟩
    | EspErr.notStopped => setIpLoop res (j + 1) (recs + 1) fuel
    | _ => setIpLoop res (j + 1) recs fuel

/-- The `esp_netif_dhcps_start` retry loop (main.c:213-229): up to `fuel`
attempts; OK breaks; DHCP_NOT_STOPPED makes one recovery `dhcps_stop` call
and retries; any other error retries. Returns (attempts, recovery stops,
final rc). -/
def dhcpsStartLoop (res : Nat → EspErr) : Nat → Nat → Nat → EspErr → Nat × Nat × EspErr
  | a, recs, 0, last => (a, recs, last)
  | a, recs, fuel + 1, _ =>
    let rc := res a
    if rc = EspErr.ok then (a + 1, recs, rc)
    else if rc = EspErr.notStopped then dhcpsStartLoop res (a + 1) (recs + 1) fuel rc
    else dhcpsStartLoop res (a + 1) recs fuel rc

/-- External responses seen by one run of `usb_dhcps_start_task`. -/
structure TaskEnv where
  netifAt : Nat → Option LwNetif   -- esp_netif_get_netif_impl at wait-poll k
  stopRes : Nat → EspErr           -- responses to the initial stop loop
  setRes : Nat → EspErr            -- responses to set_ip_info attempts
  startRes : Nat → EspErr          -- responses to dhcps_start attempts

structure TaskResult where
  lwReturned : Option LwNetif  -- what the 5 s readiness wait handed back
  waitReady : Bool             -- the wait returned through its ready exit
  stopAttempts : Nat
  setAttempts : Nat
  setRecStops : Nat
  setOk : Bool
  fallbackCalls : Nat          -- netif_set_addr calls (192.168.42.1/24)
  startAttempts : Nat
  startRecStops : Nat
  startRc : EspErr
deriving DecidableEq, Repr

/-- `usb_dhcps_start_task`: wait up to 5000 ms for the backend, then stop
dhcps (≤ 8 tries), set 192.168.42.1/24 (≤ 8 tries), on set failure fall
back to `netif_set_addr` if a netif pointer was obtained, then start dhcps
(≤ 8 tries). The service path runs regardless of the wait's outcome. -/
def usb_dhcps_start_task (env : TaskEnv) : TaskResult :=
  let wr := wait_for_lwip_netif_ready env.netifAt 5000
  let lw := wr.netif
  let stopA := dhcpsStopLoop env.stopRes 0 8
  let so := setIpLoop env.setRes 0 0 8
  let fb := if so.ok = false && lw.isSome then 1 else 0
  let st := dhcpsStartLoop env.startRes 0 0 8 EspErr.fail
  ⟨lw, wr.ready, stopA, so.attempts, so.recStops, so.ok, fb, st.1, st.2.1, st.2.2⟩

/-- The spec's reconciliation outcomes (§4.2). -/
inductive ReconcileOutcome where
  | applied
  | appliedViaFallback
  | failed
deriving DecidableEq, Repr

/-- Spec-to-code mapping of `usb_dhcps_start_task`'s terminal state:
`set_ip_info` succeeded → Applied; otherwise a performed `netif_set_addr`
fallback → AppliedViaFallback; otherwise Failed. -/
def taskOutcome (r : TaskResult) : ReconcileOutcome :=
  if r.setOk then ReconcileOutcome.applied
  else if 0 < r.fallbackCalls then ReconcileOutcome.appliedViaFallback
  else ReconcileOutcome.failed

/-- External responses seen by one run of `ensure_usb_has_ip`. -/
structure EnsureEnv where
  stopRes : Nat → EspErr
  setRes : EspErr
  lw : Option LwNetif    -- esp_netif_get_netif_impl, fetched for the fallback

structure EnsureResult where
  stopAttempts : Nat
  setCalls : Nat
  fallbackCalls : Nat
deriving DecidableEq, Repr

/-- `ensure_usb_has_ip(enet, ip, mask, gw)`: guard on `enet`, stop dhcps
(≤ 6 tries), one `esp_netif_set_ip_info`; on any set failure fall back to
`netif_set_addr` (hard-coded 192.168.42.1/24) when the impl exists. -/
def ensure_usb_has_ip (enetSet : Bool) (env : EnsureEnv) : EnsureResult :=
  if enetSet = false then ⟨0, 0, 0⟩
  else
    let sa := dhcpsStopLoop env.stopRes 0 6
    if env.setRes = EspErr.ok then ⟨sa, 1, 0⟩
    else ⟨sa, 1, if env.lw.isSome then 1 else 0⟩

/-! ## Upstream watcher: `set_usb_ip_from_wifi` (main.c:502-580) -/

/-- `!lw || lw->output == NULL || lw->linkoutput == NULL` (main.c:518). -/
def notReadyLw : Option LwNetif → Bool
  | none => true
  | some n => !n.output || !n.linkoutput

/-- External responses seen by one run of `set_usb_ip_from_wifi`
(each service call is made at most once here). -/
structure ReaddrEnv where
  lw : Option LwNetif
  stopRes : EspErr
  setRes : EspErr
  startRes : EspErr

structure ReaddrResult where
  stopCalls : Nat
  setCalls : Nat
  startCalls : Nat
  fallbackCalls : Nat
  fallbackAddr : Option IpInfo  -- argument of netif_set_addr, when called
  desired : Option IpInfo       -- the usb_ip handed to esp_netif_set_ip_info
deriving DecidableEq, Repr

/-- `set_usb_ip_from_wifi(wifi_ipinfo)`: derive octets a.b.c from
`ntohl(wifi->ip)`; if the lwIP backend is not fully ready, only the
`netif_set_addr` fallback (a.b.c.253/24) is attempted — once when the netif
pointer exists, not at all when it is null — and the function returns
before any service call. Otherwise: one dhcps_stop (result only logged),
one set_ip_info with {ip = aton("a.b.c.253") — the octets are already
< 256, so the snprintf/aton round trip packs exactly them —, netmask =
the WiFi netmask or 255.255.255.0 when that is 0, gw = ip}, fallback on
set failure (the netif pointer is non-null on this path), then one
dhcps_start. -/
def set_usb_ip_from_wifi (usbNetifSet : Bool) (wifi : Option IpInfo)
    (env : ReaddrEnv) : ReaddrResult :=
  match wifi with
  | none => ⟨0, 0, 0, 0, none, none⟩
  | some wi =>
    if usbNetifSet = false then ⟨0, 0, 0, 0, none, none⟩
    else
      let w := wi.ip
      let a := (w >>> 24) &&& 255
      let b := (w >>> 16) &&& 255
      let c := (w >>> 8) &&& 255
      let fbAddr : IpInfo := ⟨mkIp4 a b c 253, mkIp4 255 255 255 0, mkIp4 a b c 253⟩
      if notReadyLw env.lw then
        match env.lw with
        | some _ => ⟨0, 0, 0, 1, some fbAddr, none⟩
        | none => ⟨0, 0, 0, 0, none, none⟩
      else
        let usbIp : IpInfo :=
          ⟨mkIp4 a b c 253,
           if wi.netmask ≠ 0 then wi.netmask else mkIp4 255 255 255 0,
           mkIp4 a b c 253⟩
        if env.setRes = EspErr.ok then
          ⟨1, 1, 1, 0, none, some usbIp⟩
        else
          ⟨1, 1, 1, 1, some fbAddr, some usbIp⟩

/-! ## Helper lemmas -/

lemma and255_eq_mod (x : Nat) : x &&& 255 = x % 256 := by
  have h2 : (255 : Nat) = 2 ^ 8 - 1 := by norm_num
  have h := Nat.and_pow_two_sub_one_eq_mod x 8
  rw [h2]
  simpa using h

lemma mkIp4_lt (a b c d : Nat) : mkIp4 a b c d < 4294967296 := by
  unfold mkIp4
  omega

lemma mkIp4_oct0 (a b c d : Nat) (ha : a < 256) :
    (mkIp4 a b c d >>> 24) &&& 255 = a := by
  rw [and255_eq_mod, Nat.shiftRight_eq_div_pow]
  unfold mkIp4
  norm_num
  omega

lemma mkIp4_oct1 (a b c d : Nat) (hb : b < 256) :
    (mkIp4 a b c d >>> 16) &&& 255 = b := by
  rw [and255_eq_mod, Nat.shiftRight_eq_div_pow]
  unfold mkIp4
  norm_num
  omega

lemma mkIp4_oct2 (a b c d : Nat) (hc : c < 256) :
    (mkIp4 a b c d >>> 8) &&& 255 = c := by
  rw [and255_eq_mod, Nat.shiftRight_eq_div_pow]
  unfold mkIp4
  norm_num
  omega

lemma land_mask24 (w : Nat) (hw : w < 4294967296) :
    w &&& 4294967040 = (w >>> 8) <<< 8 := by
  have hm : (4294967040 : Nat) = (2 ^ 24 - 1) <<< 8 := by
    rw [Nat.shiftLeft_eq]
    norm_num
  apply Nat.eq_of_testBit_eq
  intro i
  rw [hm, Nat.testBit_land, Nat.testBit_shiftLeft, Nat.testBit_shiftLeft,
    Nat.testBit_shiftRight, Nat.testBit_two_pow_sub_one]
  by_cases h8 : 8 ≤ i
  · have hi : 8 + (i - 8) = i := by omega
    rw [hi]
    by_cases h32 : i < 32
    · have h24 : i - 8 < 24 := by omega
      simp [h8, h24]
    · have h1 : ¬(i - 8 < 24) := by omega
      have h2 : Nat.testBit w i = false := by
        apply Nat.testBit_lt_two_pow
        calc w < 4294967296 := hw
          _ = 2 ^ 32 := by norm_num
          _ ≤ 2 ^ i := Nat.pow_le_pow_right (by norm_num) (by omega)
      simp [h8, h1, h2]
  · simp [h8]

lemma mkIp4_shift8 (a b c d : Nat) :
    (mkIp4 a b c d >>> 8) <<< 8 = mkIp4 a b c 0 := by
  rw [Nat.shiftRight_eq_div_pow, Nat.shiftLeft_eq]
  unfold mkIp4
  norm_num
  omega

lemma mkIp4_mask24_eq_val : mkIp4 255 255 255 0 = 4294967040 := by
  unfold mkIp4
  norm_num

/-- Masking any packed address with the /24 mask clears exactly the host
byte. -/
lemma networkAddr_mask24 (a b c d : Nat) :
    networkAddr (mkIp4 a b c d) (mkIp4 255 255 255 0) = mkIp4 a b c 0 := by
  rw [networkAddr, mkIp4_mask24_eq_val, land_mask24 _ (mkIp4_lt a b c d),
    mkIp4_shift8]

lemma mkIp4_mod256 (a b c d : Nat) : mkIp4 a b c d % 256 = d % 256 := by
  unfold mkIp4
  omega

/-! ### Drain-loop lemmas -/

lemma xmitLoop_written (segs : List (List Nat)) (t : Nat) :
    (xmitLoop segs t).1 = segs.flatten := by
  induction segs generalizing t with
  | nil => rfl
  | cons q rest ih =>
    by_cases h : q.length ≠ 0
    · simp [xmitLoop, h, ih]
    · have hq : q = [] := by
        simpa using List.length_eq_zero.mp (by omega)
      simp [xmitLoop, h, hq, ih]

lemma xmitLoop_total (segs : List (List Nat)) (t : Nat)
    (h : t + (segs.map List.length).sum < 65536) :
    (xmitLoop segs t).2 = t + (segs.map List.length).sum := by
  induction segs generalizing t with
  | nil => simp [xmitLoop]
  | cons q rest ih =>
    simp only [List.map_cons, List.sum_cons] at h ⊢
    by_cases hq : q.length ≠ 0
    · have hmod : (t + q.length) % 65536 = t + q.length :=
        Nat.mod_eq_of_lt (by omega)
      simp only [xmitLoop, if_pos hq]
      rw [hmod, ih _ (by omega)]
      omega
    · have hq0 : q.length = 0 := by omega
      simp only [xmitLoop, if_neg hq]
      rw [ih _ (by omega)]
      omega

/-! ### Retry-loop lemmas -/

lemma dhcpsStopLoop_le (res : Nat → EspErr) (i fuel : Nat) :
    dhcpsStopLoop res i fuel ≤ i + fuel := by
  induction fuel generalizing i with
  | zero => simp [dhcpsStopLoop]
  | succ n ih =>
    simp only [dhcpsStopLoop]
    split
    · omega
    · exact le_trans (ih (i + 1)) (by omega)

/-- The stop loop inspects its responses only through `stopSuccess`:
streams agreeing on that predicate drive identical loops. -/
lemma dhcpsStopLoop_congr (f g : Nat → EspErr)
    (h : ∀ i, stopSuccess (f i) = stopSuccess (g i)) (i fuel : Nat) :
    dhcpsStopLoop f i fuel = dhcpsStopLoop g i fuel := by
  induction fuel generalizing i with
  | zero => rfl
  | succ n ih =>
    simp only [dhcpsStopLoop, h i]
    split
    · rfl
    · exact ih (i + 1)

lemma dhcpsStopLoop_exit (res : Nat → EspErr) (i fuel : Nat)
    (h : stopSuccess (res i) = true) :
    dhcpsStopLoop res i (fuel + 1) = i + 1 := by
  simp [dhcpsStopLoop, h]

lemma dhcpsStopLoop_exhaust (res : Nat → EspErr) (i fuel : Nat)
    (h : ∀ k, stopSuccess (res k) = false) :
    dhcpsStopLoop res i fuel = i + fuel := by
  induction fuel generalizing i with
  | zero => simp [dhcpsStopLoop]
  | succ n ih =>
    simp only [dhcpsStopLoop, h i]
    simp only [Bool.false_eq_true, if_false]
    rw [ih (i + 1)]
    omega

lemma setIpLoop_attempts_le (res : Nat → EspErr) (j recs fuel : Nat) :
    (setIpLoop res j recs fuel).attempts ≤ j + fuel := by
  induction fuel generalizing j recs with
  | zero => simp [setIpLoop]
  | succ n ih =>
    simp only [setIpLoop]
    split
    · simp
    · exact le_trans (ih (j + 1) (recs + 1)) (by omega)
    · exact le_trans (ih (j + 1) recs) (by omega)

lemma setIpLoop_attempts_ge (res : Nat → EspErr) (j recs fuel : Nat) :
    j ≤ (setIpLoop res j recs fuel).attempts := by
  induction fuel generalizing j recs with
  | zero => simp [setIpLoop]
  | succ n ih =>
    simp only [setIpLoop]
    split
    · simp
    · exact le_trans (by omega) (ih (j + 1) (recs + 1))
    · exact le_trans (by omega) (ih (j + 1) recs)

lemma dhcpsStopLoop_ge (res : Nat → EspErr) (i fuel : Nat) :
    i ≤ dhcpsStopLoop res i fuel := by
  induction fuel generalizing i with
  | zero => simp [dhcpsStopLoop]
  | succ n ih =>
    simp only [dhcpsStopLoop]
    split
    · omega
    · exact le_trans (by omega) (ih (i + 1))

lemma dhcpsStopLoop_pos (res : Nat → EspErr) (i fuel : Nat) :
    i + 1 ≤ dhcpsStopLoop res i (fuel + 1) := by
  simp only [dhcpsStopLoop]
  split
  · omega
  · exact le_trans (by omega) (dhcpsStopLoop_ge res (i + 1) fuel)

lemma setIpLoop_attempts_pos (res : Nat → EspErr) (j recs fuel : Nat) :
    j + 1 ≤ (setIpLoop res j recs (fuel + 1)).attempts := by
  simp only [setIpLoop]
  split
  · simp
  · exact le_trans (by omega) (setIpLoop_attempts_ge res (j + 1) (recs + 1) fuel)
  · exact le_trans (by omega) (setIpLoop_attempts_ge res (j + 1) recs fuel)

lemma dhcpsStartLoop_le (res : Nat → EspErr) (a recs fuel : Nat) (last : EspErr) :
    (dhcpsStartLoop res a recs fuel last).1 ≤ a + fuel := by
  induction fuel generalizing a recs last with
  | zero => simp [dhcpsStartLoop]
  | succ n ih =>
    simp only [dhcpsStartLoop]
    split
    · omega
    · split
      · exact le_trans (ih (a + 1) (recs + 1) _) (by omega)
      · exact le_trans (ih (a + 1) recs _) (by omega)

/-! ## Concrete fixtures used by the witnesses and counterexamples -/

/-- A fully wired lwIP netif: all three backend pointers non-null. -/
def lwAllWired : LwNetif := ⟨true, true, true⟩

/-- An attached lwIP netif whose backend callbacks are all still null
(the state the source logs as "lwIP attached but backend callbacks NULL"). -/
def lwNoCallbacks : LwNetif := ⟨false, false, false⟩

def recvEnvReady : RecvEnv := ⟨true, some lwAllWired, true, [1514], true, true⟩

def recvEnvNoCallbacks : RecvEnv := ⟨true, some lwNoCallbacks, true, [1514], true, true⟩

def pbufSample : Pbuf := ⟨[[1, 2, 3], [4, 5]]⟩

def readdrEnvReady : ReaddrEnv := ⟨some lwAllWired, EspErr.ok, EspErr.ok, EspErr.ok⟩

def readdrEnvStuck : ReaddrEnv := ⟨some lwNoCallbacks, EspErr.ok, EspErr.ok, EspErr.ok⟩

/-- A run in which the backend never becomes ready within the 5 s wait but
the configuration service answers OK to everything. -/
def taskEnvSvcOk : TaskEnv :=
  ⟨fun _ => some lwNoCallbacks, fun _ => EspErr.ok, fun _ => EspErr.ok,
   fun _ => EspErr.ok⟩

/-! ## Claim theorems -/

/-- C8: the outbound relay (`tud_network_xmit_cb`) drains every segment of
the frame buffer into the transport in segment order, accumulating a
running total equal to the sum of the segment lengths (which it returns),
and releases the buffer exactly once afterwards; and when the transport
reports not-ready, `usb_driver_transmit` drops the frame — frees the buffer
and returns failure — without handing it on (no retry). -/
theorem outbound_drain_and_release (p : Pbuf) (h : pbufTotLen p < 65536) :
    (tud_network_xmit_cb (some ()) (some p)).written = p.segs.flatten ∧
    (tud_network_xmit_cb (some ()) (some p)).ret = pbufTotLen p ∧
    (tud_network_xmit_cb (some ()) (some p)).frees = 1 ∧
    (∀ q : Pbuf, usb_driver_transmit (some q) false = ⟨EspErr.fail, 1, 0⟩) := by
  refine ⟨?_, ?_, rfl, fun q => rfl⟩
  · show (xmitLoop p.segs 0).1 = p.segs.flatten
    exact xmitLoop_written p.segs 0
  · show (xmitLoop p.segs 0).2 = pbufTotLen p
    have hx := xmitLoop_total p.segs 0 (by
      simpa [pbufTotLen] using h)
    simpa [pbufTotLen] using hx

/-- C8 witness: the drain property evaluated on a concrete two-segment
buffer. -/
theorem outbound_drain_and_release_witness :
    pbufTotLen pbufSample < 65536 ∧
    (tud_network_xmit_cb (some ()) (some pbufSample)).ret = pbufTotLen pbufSample ∧
    (tud_network_xmit_cb (some ()) (some pbufSample)).frees = 1 :=
  ⟨by decide, (outbound_drain_and_release pbufSample (by decide)).2.1,
   (outbound_drain_and_release pbufSample (by decide)).2.2.1⟩

/-- C10: a call to the outbound copy callback with a null destination or a
null buffer reference returns 0 and does not release the buffer; the
single-release guarantee therefore needs both pointers non-null, under
which the callback frees exactly once. -/
theorem xmit_null_guard (dst : Option Unit) (ref : Option Pbuf)
    (h : dst = none ∨ ref = none) :
    tud_network_xmit_cb dst ref = ⟨[], 0, 0⟩ ∧
    (∀ p : Pbuf, (tud_network_xmit_cb (some ()) (some p)).frees = 1) := by
  refine ⟨?_, fun p => rfl⟩
  rcases h with h | h
  · subst h
    cases ref <;> rfl
  · subst h
    cases dst <;> rfl

/-- C10 witness: the null-guard at a concrete null destination. -/
theorem xmit_null_guard_witness :
    tud_network_xmit_cb none (some pbufSample) = ⟨[], 0, 0⟩ :=
  (xmit_null_guard none (some pbufSample) (Or.inl rfl)).1

/-- C6: for any sequence of service responses, the reconciliation task's
three retry loops each make at most 8 attempts, and the run reaches one of
the three terminal outcomes. -/
theorem reconcile_terminates (env : TaskEnv) :
    (usb_dhcps_start_task env).stopAttempts ≤ 8 ∧
    (usb_dhcps_start_task env).setAttempts ≤ 8 ∧
    (usb_dhcps_start_task env).startAttempts ≤ 8 ∧
    (taskOutcome (usb_dhcps_start_task env) = ReconcileOutcome.applied ∨
     taskOutcome (usb_dhcps_start_task env) = ReconcileOutcome.appliedViaFallback ∨
     taskOutcome (usb_dhcps_start_task env) = ReconcileOutcome.failed) := by
  refine ⟨?_, ?_, ?_, ?_⟩
  · show dhcpsStopLoop env.stopRes 0 8 ≤ 8
    simpa using dhcpsStopLoop_le env.stopRes 0 8
  · show (setIpLoop env.setRes 0 0 8).attempts ≤ 8
    simpa using setIpLoop_attempts_le env.setRes 0 0 8
  · show (dhcpsStartLoop env.startRes 0 0 8 EspErr.fail).1 ≤ 8
    simpa using dhcpsStartLoop_le env.startRes 0 0 8 EspErr.fail
  · unfold taskOutcome
    split_ifs <;> simp

/-- C7: the initial dhcps-stop is retried up to a fixed bound while the
service reports transient failure, with "already stopped" treated exactly
like success (the loop exits); and exhausting the bound is not fatal — the
set-assignment phase always runs (in `usb_dhcps_start_task` and in
`ensure_usb_has_ip` alike). -/
theorem dhcps_stop_retry_policy :
    (∀ f g : Nat → EspErr, (∀ i, stopSuccess (f i) = stopSuccess (g i)) →
      ∀ i fuel, dhcpsStopLoop f i fuel = dhcpsStopLoop g i fuel) ∧
    stopSuccess EspErr.alreadyStopped = stopSuccess EspErr.ok ∧
    (∀ (res : Nat → EspErr) (i fuel : Nat), res i = EspErr.alreadyStopped →
      dhcpsStopLoop res i (fuel + 1) = i + 1) ∧
    (∀ res : Nat → EspErr, (∀ k, stopSuccess (res k) = false) →
      dhcpsStopLoop res 0 8 = 8) ∧
    (∀ env : TaskEnv, 1 ≤ (usb_dhcps_start_task env).setAttempts) ∧
    (∀ env : EnsureEnv, (ensure_usb_has_ip true env).setCalls = 1) := by
  refine ⟨dhcpsStopLoop_congr, rfl, ?_, ?_, ?_, ?_⟩
  · intro res i fuel h
    exact dhcpsStopLoop_exit res i fuel (by simp [stopSuccess, h])
  · intro res h
    simpa using dhcpsStopLoop_exhaust res 0 8 h
  · intro env
    show 1 ≤ (setIpLoop env.setRes 0 0 8).attempts
    simpa using setIpLoop_attempts_pos env.setRes 0 0 7
  · intro env
    unfold ensure_usb_has_ip
    split
    · simp_all
    · split <;> rfl

/-- C7 witness: the retry policy evaluated on concrete response streams —
a permanently busy service exhausts all 8 attempts, while "already stopped"
ends the loop on the first attempt. -/
theorem dhcps_stop_retry_policy_witness :
    dhcpsStopLoop (fun _ => EspErr.fail) 0 8 = 8 ∧
    dhcpsStopLoop (fun _ => EspErr.alreadyStopped) 0 8 = 1 :=
  ⟨dhcps_stop_retry_policy.2.2.2.1 (fun _ => EspErr.fail) (fun _ => rfl),
   dhcps_stop_retry_policy.2.2.1 (fun _ => EspErr.alreadyStopped) 0 7 rfl⟩

/-- C9: on an interface whose backend callbacks are already non-null, the
readiness wait returns Ready with that interface's handle on the first poll
iteration, with zero sleeps; the wait only observes the environment, so an
immediate second call (the environment advanced by the zero elapsed polls)
returns Ready with the same handle again. -/
theorem wait_ready_idempotent (env : Nat → Option LwNetif) (T : Nat) (n : LwNetif)
    (h0 : env 0 = some n) (hout : n.output = true) (hlink : n.linkoutput = true)
    (hT : 0 < T) :
    wait_for_lwip_netif_ready env T = ⟨some n, true, 0⟩ ∧
    wait_for_lwip_netif_ready
      (fun t => env (t + (wait_for_lwip_netif_ready env T).sleeps)) T =
      ⟨some n, true, 0⟩ := by
  obtain ⟨m, hm⟩ : ∃ m, (T + 99) / 100 = m + 1 := by
    have h1 : 1 ≤ (T + 99) / 100 := by
      apply (Nat.le_div_iff_mul_le (by norm_num)).mpr
      omega
    exact ⟨(T + 99) / 100 - 1, by omega⟩
  have hrn : netifReady (some n) = true := by
    simp [netifReady, hout, hlink]
  have h1 : wait_for_lwip_netif_ready env T = ⟨some n, true, 0⟩ := by
    unfold wait_for_lwip_netif_ready
    rw [hm]
    simp only [waitLoop, h0, hrn, if_true]
  refine ⟨h1, ?_⟩
  rw [h1]
  simpa using h1

/-- C9 witness: a constantly ready interface polled with a 2 s budget. -/
theorem wait_ready_idempotent_witness :
    wait_for_lwip_netif_ready (fun _ => some lwAllWired) 2000 =
      ⟨some lwAllWired, true, 0⟩ :=
  (wait_ready_idempotent (fun _ => some lwAllWired) 2000 lwAllWired rfl rfl rfl
    (by norm_num)).1

/-- Every result `tud_network_recv_cb` can produce: early reject with
nothing allocated, allocate-then-free-and-reject, or allocate-and-post. -/
lemma recv_cases (src : Option (List Nat)) (size : Nat) (env : RecvEnv) :
    tud_network_recv_cb src size env = ⟨false, 0, 0, false⟩ ∨
    tud_network_recv_cb src size env = ⟨false, 1, 1, false⟩ ∨
    tud_network_recv_cb src size env = ⟨true, 1, 0, true⟩ := by
  unfold tud_network_recv_cb
  rcases src with _ | s
  · left; rfl
  · by_cases h1 : size = 0
    · simp [h1]
    · by_cases h2 : env.usbNetifSet = false
      · simp [h1, h2]
      · rcases hlw : env.lw with _ | nn
        · simp [h1, h2, hlw]
        · by_cases h3 : env.pbufAllocOk = false
          · simp [h1, h2, hlw, h3]
          · by_cases h4 : env.mallocOk = false
            · simp [h1, h2, hlw, h3, h4]
            · by_cases h5 : env.postOk = false
              · simp [h1, h2, hlw, h3, h4, h5]
              · simp [h1, h2, hlw, h3, h4, h5]

/-- Every defined result of the deferred tcpip-thread callback on a posted
pbuf: undefined (null input pointer), accepted by the stack, or rejected
and freed. -/
lemma inputcb_cases (n : Option LwNetif) (res : LwErr) :
    netif_input_cb n true res = none ∨
    netif_input_cb n true res = some ⟨0, true⟩ ∨
    netif_input_cb n true res = some ⟨1, false⟩ := by
  unfold netif_input_cb
  rcases n with _ | nn
  · right; right; rfl
  · by_cases hi : nn.input <;> by_cases hres : res = ERR_OK <;> simp [hi, hres]

/-- C1: along the inbound path, every allocated frame buffer is released
exactly once — freed by the relay exactly when the stack's input rejected
it or the hand-off failed, and never freed by the relay when the stack
accepted it; along the outbound path, the transmit callback frees the
buffer exactly once after draining it. -/
theorem pbuf_single_release (src : Option (List Nat)) (size : Nat) (env : RecvEnv)
    (inputRes : LwErr) (o : RelayOutcome)
    (h : inboundRelay src size env inputRes = some o) :
    o.frees + (if o.accepted then 1 else 0) = o.allocs ∧
    (o.accepted = true → o.frees = 0) ∧
    (∀ p : Pbuf, (tud_network_xmit_cb (some ()) (some p)).frees = 1) := by
  have hmain : o.frees + (if o.accepted then 1 else 0) = o.allocs ∧
      (o.accepted = true → o.frees = 0) := by
    rcases recv_cases src size env with hr | hr | hr <;>
      simp only [inboundRelay, hr] at h
    · simp at h
      subst h
      simp
    · simp at h
      subst h
      simp
    · rcases inputcb_cases env.lw inputRes with hc | hc | hc <;> rw [hc] at h <;>
        simp at h
      · subst h
        simp
      · subst h
        simp
  exact ⟨hmain.1, hmain.2, fun p => rfl⟩

/-- C1 witness: a fully successful inbound hand-off — one buffer allocated,
accepted by the stack, zero relay frees. -/
theorem pbuf_single_release_witness :
    (⟨true, 1, 0, true⟩ : RelayOutcome).frees +
      (if (⟨true, 1, 0, true⟩ : RelayOutcome).accepted then 1 else 0) =
      (⟨true, 1, 0, true⟩ : RelayOutcome).allocs ∧
    ((⟨true, 1, 0, true⟩ : RelayOutcome).accepted = true →
      (⟨true, 1, 0, true⟩ : RelayOutcome).frees = 0) ∧
    (∀ p : Pbuf, (tud_network_xmit_cb (some ()) (some p)).frees = 1) :=
  pbuf_single_release (some [0]) 1 recvEnvReady 0 ⟨true, 1, 0, true⟩ rfl

/-- What the ready path of `set_usb_ip_from_wifi` hands to
`esp_netif_set_ip_info`, for a station address given by its octets:
address a.b.c.253, netmask copied unless zero (then /24), gateway = the
address. Shared by the C3 and C4 theorems. -/
lemma set_usb_desired (a b c x mm gw0 : Nat) (env : ReaddrEnv)
    (ha : a < 256) (hb : b < 256) (hc : c < 256)
    (hready : notReadyLw env.lw = false) :
    (set_usb_ip_from_wifi true (some ⟨mkIp4 a b c x, mm, gw0⟩) env).desired =
      some ⟨mkIp4 a b c 253, if mm ≠ 0 then mm else mkIp4 255 255 255 0,
            mkIp4 a b c 253⟩ := by
  have e0 := mkIp4_oct0 a b c x ha
  have e1 := mkIp4_oct1 a b c x hb
  have e2 := mkIp4_oct2 a b c x hc
  simp only [set_usb_ip_from_wifi, hready, Bool.false_eq_true, if_false,
    Bool.true_eq_false, e0, e1, e2]
  split_ifs <;> rfl

/-- C3: from a station assignment a.b.c.x/24 the watcher derives the
exposed-interface assignment a.b.c.253 with the station's netmask (or
255.255.255.0 when the station's netmask is zero) and gateway equal to the
derived address; in particular 10.0.5.42/24 yields 10.0.5.253/24. -/
theorem usb_ip_derivation (a b c x gw0 : Nat) (env : ReaddrEnv)
    (ha : a < 256) (hb : b < 256) (hc : c < 256)
    (hready : notReadyLw env.lw = false) :
    (set_usb_ip_from_wifi true
        (some ⟨mkIp4 a b c x, mkIp4 255 255 255 0, gw0⟩) env).desired =
      some ⟨mkIp4 a b c 253, mkIp4 255 255 255 0, mkIp4 a b c 253⟩ ∧
    (set_usb_ip_from_wifi true (some ⟨mkIp4 a b c x, 0, gw0⟩) env).desired =
      some ⟨mkIp4 a b c 253, mkIp4 255 255 255 0, mkIp4 a b c 253⟩ := by
  constructor
  · rw [set_usb_desired a b c x (mkIp4 255 255 255 0) gw0 env ha hb hc hready]
    have hnz : mkIp4 255 255 255 0 ≠ 0 := by
      rw [mkIp4_mask24_eq_val]
      norm_num
    simp [hnz]
  · rw [set_usb_desired a b c x 0 gw0 env ha hb hc hready]
    simp

/-- C3 witness: station 10.0.5.42/24 yields exposed assignment
10.0.5.253/24 with gateway 10.0.5.253. -/
theorem usb_ip_derivation_witness :
    (set_usb_ip_from_wifi true
        (some ⟨mkIp4 10 0 5 42, mkIp4 255 255 255 0, 0⟩) readdrEnvReady).desired =
      some ⟨mkIp4 10 0 5 253, mkIp4 255 255 255 0, mkIp4 10 0 5 253⟩ :=
  (usb_ip_derivation 10 0 5 42 0 readdrEnvReady (by norm_num) (by norm_num)
    (by norm_num) rfl).1

/-- C4 counterexample: for station 10.0.5.42/24 the watcher derives
10.0.5.253/24, whose /24 network address 10.0.5.0 EQUALS the station's —
the code deliberately follows the WiFi subnet, contradicting the claimed
non-overlap. -/
theorem subnet_distinct_cex :
    (set_usb_ip_from_wifi true
        (some ⟨mkIp4 10 0 5 42, mkIp4 255 255 255 0, 0⟩) readdrEnvReady).desired =
      some ⟨mkIp4 10 0 5 253, mkIp4 255 255 255 0, mkIp4 10 0 5 253⟩ ∧
    networkAddr (mkIp4 10 0 5 253) (mkIp4 255 255 255 0) =
      networkAddr (mkIp4 10 0 5 42) (mkIp4 255 255 255 0) := by
  exact ⟨by decide, by decide⟩

/-- C4 amended: for all /24 station assignments the derived
exposed-interface assignment's network address is EQUAL to the station's
network address (same subnet, host suffix .253); the two full addresses
differ exactly when the station's host byte is not 253. -/
theorem subnet_follows_wifi (a b c x gw0 : Nat) (env : ReaddrEnv)
    (ha : a < 256) (hb : b < 256) (hc : c < 256) (hx : x < 256)
    (hready : notReadyLw env.lw = false) :
    (set_usb_ip_from_wifi true
        (some ⟨mkIp4 a b c x, mkIp4 255 255 255 0, gw0⟩) env).desired =
      some ⟨mkIp4 a b c 253, mkIp4 255 255 255 0, mkIp4 a b c 253⟩ ∧
    networkAddr (mkIp4 a b c 253) (mkIp4 255 255 255 0) =
      networkAddr (mkIp4 a b c x) (mkIp4 255 255 255 0) ∧
    (x ≠ 253 → mkIp4 a b c 253 ≠ mkIp4 a b c x) := by
  refine ⟨?_, ?_, ?_⟩
  · rw [set_usb_desired a b c x (mkIp4 255 255 255 0) gw0 env ha hb hc hready]
    have hnz : mkIp4 255 255 255 0 ≠ 0 := by
      rw [mkIp4_mask24_eq_val]
      norm_num
    simp [hnz]
  · rw [networkAddr_mask24, networkAddr_mask24]
  · intro hne heq
    have h253 := mkIp4_mod256 a b c 253
    have hx2 := mkIp4_mod256 a b c x
    rw [heq] at h253
    omega

/-- C4 amended witness: the subnet equality at station 10.0.5.42/24. -/
theorem subnet_follows_wifi_witness :
    networkAddr (mkIp4 10 0 5 253) (mkIp4 255 255 255 0) =
      networkAddr (mkIp4 10 0 5 42) (mkIp4 255 255 255 0) ∧
    mkIp4 10 0 5 253 ≠ mkIp4 10 0 5 42 :=
  ⟨(subnet_follows_wifi 10 0 5 42 0 readdrEnvReady (by norm_num) (by norm_num)
      (by norm_num) (by norm_num) rfl).2.1,
   (subnet_follows_wifi 10 0 5 42 0 readdrEnvReady (by norm_num) (by norm_num)
      (by norm_num) (by norm_num) rfl).2.2 (by norm_num)⟩

/-- C5 counterexample: a 1514-byte inbound frame arriving while the lwIP
netif is attached but its backend function pointers are all still null
(per the glossary, no attached backend) is ACCEPTED by
`tud_network_recv_cb` with one buffer allocated — the code checks only the
impl pointer's nullness, never the function pointers. -/
theorem inbound_backend_check_cex :
    notReadyLw recvEnvNoCallbacks.lw = true ∧
    recvEnvNoCallbacks.lw.map LwNetif.input = some false ∧
    (tud_network_recv_cb (some (List.replicate 1514 0)) 1514
      recvEnvNoCallbacks).ret = true ∧
    (tud_network_recv_cb (some (List.replicate 1514 0)) 1514
      recvEnvNoCallbacks).allocs = 1 :=
  ⟨rfl, rfl, rfl, rfl⟩

/-- C5 amended: `tud_network_recv_cb` returns rejected with zero buffers
allocated when the frame length is 0, the source pointer is null, the usb
esp-netif is absent, or the lwIP netif impl is absent; the netif's
input/output function pointers are not consulted by the inbound guard. -/
theorem inbound_reject_conditions (src : Option (List Nat)) (size : Nat)
    (env : RecvEnv)
    (h : src = none ∨ size = 0 ∨ env.usbNetifSet = false ∨ env.lw = none) :
    tud_network_recv_cb src size env = ⟨false, 0, 0, false⟩ := by
  unfold tud_network_recv_cb
  rcases src with _ | s
  · rfl
  · rcases h with h | h | h | h
    · exact absurd h (by simp)
    · simp [h]
    · simp only [h]
      split_ifs <;> rfl
    · simp only [h]
      split_ifs <;> rfl

/-- C5 amended witness: a null source pointer is rejected with zero
allocations even with a fully ready backend. -/
theorem inbound_reject_conditions_witness :
    tud_network_recv_cb none 1514 recvEnvReady = ⟨false, 0, 0, false⟩ :=
  inbound_reject_conditions none 1514 recvEnvReady (Or.inl rfl)

/-- C2 counterexample: with a backend whose callbacks never become ready
(the 5 s readiness wait times out) and a service that answers OK,
`usb_dhcps_start_task` still drives the configuration-service path — one
dhcps-stop and one set-ip-info call — and performs ZERO fallback calls,
contradicting "attempts only the fallback, never the service path" and
"exactly one fallback call" after a readiness timeout. -/
theorem readdr_service_path_cex :
    (usb_dhcps_start_task taskEnvSvcOk).waitReady = false ∧
    (usb_dhcps_start_task taskEnvSvcOk).stopAttempts = 1 ∧
    (usb_dhcps_start_task taskEnvSvcOk).setAttempts = 1 ∧
    (usb_dhcps_start_task taskEnvSvcOk).setOk = true ∧
    (usb_dhcps_start_task taskEnvSvcOk).fallbackCalls = 0 :=
  ⟨rfl, rfl, rfl, rfl, rfl⟩

/-- C2 amended: `set_usb_ip_from_wifi` (which checks readiness once,
without waiting) is the function with the claimed behaviour: when the lwIP
backend is not confirmed ready it never calls dhcps stop / set-ip-info /
dhcps start and attempts only the link-layer fallback — exactly once when
the netif pointer is attached, zero times when it is absent.
`usb_dhcps_start_task`, by contrast, always enters the service path (at
least one stop and one set attempt) even when its readiness wait timed
out. -/
theorem readdr_fallback_only_when_not_ready (wifi : IpInfo) (env : ReaddrEnv)
    (h : notReadyLw env.lw = true) :
    (set_usb_ip_from_wifi true (some wifi) env).stopCalls = 0 ∧
    (set_usb_ip_from_wifi true (some wifi) env).setCalls = 0 ∧
    (set_usb_ip_from_wifi true (some wifi) env).startCalls = 0 ∧
    (set_usb_ip_from_wifi true (some wifi) env).fallbackCalls =
      (if env.lw.isSome then 1 else 0) ∧
    (∀ tenv : TaskEnv, 1 ≤ (usb_dhcps_start_task tenv).stopAttempts ∧
      1 ≤ (usb_dhcps_start_task tenv).setAttempts) := by
  have htask : ∀ tenv : TaskEnv, 1 ≤ (usb_dhcps_start_task tenv).stopAttempts ∧
      1 ≤ (usb_dhcps_start_task tenv).setAttempts := by
    intro tenv
    constructor
    · show 1 ≤ dhcpsStopLoop tenv.stopRes 0 8
      simpa using dhcpsStopLoop_pos tenv.stopRes 0 7
    · show 1 ≤ (setIpLoop tenv.setRes 0 0 8).attempts
      simpa using setIpLoop_attempts_pos tenv.setRes 0 0 7
  simp only [set_usb_ip_from_wifi, h, if_true]
  rcases hlw : env.lw with _ | nn <;> simp [htask]

/-- C2 amended witness: a netif attached with null callbacks gets exactly
one fallback call and no service calls from `set_usb_ip_from_wifi`. -/
theorem readdr_fallback_only_when_not_ready_witness :
    (set_usb_ip_from_wifi true
        (some ⟨mkIp4 10 0 5 42, mkIp4 255 255 255 0, 0⟩) readdrEnvStuck).setCalls = 0 ∧
    (set_usb_ip_from_wifi true
        (some ⟨mkIp4 10 0 5 42, mkIp4 255 255 255 0, 0⟩) readdrEnvStuck).fallbackCalls =
      (if readdrEnvStuck.lw.isSome then 1 else 0) :=
  ⟨(readdr_fallback_only_when_not_ready
      ⟨mkIp4 10 0 5 42, mkIp4 255 255 255 0, 0⟩ readdrEnvStuck rfl).2.1,
   (readdr_fallback_only_when_not_ready
      ⟨mkIp4 10 0 5 42, mkIp4 255 255 255 0, 0⟩ readdrEnvStuck rfl).2.2.2.1⟩

end WifiAdapter
